import Mathlib

/-!
Shallow embedding of the video-streamer repository
(`video_streamer/core/camera.py`, `video_streamer/core/streamer.py`).

Bytes are modelled as `List Nat` (each entry a byte value), URIs as
`List Char`.  External library collaborators (`multiprocessing.Queue`,
`requests`, PIL) are modelled at their documented interface boundary,
exactly as the repository uses them.
-/

set_option maxRecDepth 4000

/-- Decidable equality of `Except` results, component-wise. -/
instance {ε α : Type} [DecidableEq ε] [DecidableEq α] : DecidableEq (Except ε α)
  | Except.ok a, Except.ok b => decidable_of_iff (a = b) (by simp)
  | Except.ok _, Except.error _ => isFalse (by simp)
  | Except.error _, Except.ok _ => isFalse (by simp)
  | Except.error e, Except.error f => decidable_of_iff (e = f) (by simp)

/-- Byte values of a Python byte-string literal (each character one byte). -/
def strBytes (s : String) : List Nat := s.data.map Char.toNat

/-- Characters of a Python string literal. -/
def strChars (s : String) : List Char := s.data

/- ### The single-slot channel

`MJPEGStreamer.start` creates `multiprocessing.Queue(1)`: a bounded queue of
capacity one, modelled as an `Option`-valued slot.  Per the Python library
semantics used by the repository: `put` on a full queue blocks until a slot
frees (it never discards the held item) — modelled by returning `none`
("no completed post-state"); `put` on an empty queue stores the item;
`get_nowait` returns the held item and empties the slot, and raises
`queue.Empty` (modelled as `none`) when the slot is empty. -/

/-- One `Queue(1).put`: stores into an empty slot; blocks when full. -/
def mpQueuePut {α : Type} (slot : Option α) (v : α) : Option (Option α) :=
  match slot with
  | none => some (some v)
  | some _ => none

/-- One `Queue(1).get_nowait`: returns the held item, emptying the slot. -/
def mpQueueGetNowait {α : Type} (slot : Option α) : Option (α × Option α) :=
  match slot with
  | some v => some (v, none)
  | none => none

/-- A sequence of `put` calls, each one only completing if the previous did. -/
def mpQueuePutSeq {α : Type} (slot : Option α) (vs : List α) : Option (Option α) :=
  vs.foldl (fun acc v => acc.bind (fun s => mpQueuePut s v)) (some slot)

/- ### Python class-body method resolution for `class Camera`

`camera.py` binds `poll_image` twice and `get_jpeg` twice in the body of
`class Camera`; in Python the later binding replaces the earlier one.  The
class body is embedded as the ordered list of its method bindings and
resolution picks the last binding of a name. -/

/-- Tags for the method bodies bound in the source order of `class Camera`. -/
inductive MethodImpl where
  | cameraInit
  | camTypeProp
  | deviceUriProp
  | connectionDeviceProp
  | sizeProp
  | widthProp
  | heightProp
  | getFrameNumber
  | pollOnceDispatch
  | writeData
  | pollImageQueueLoop
  | jpegEncodeResize
  | pollImageHttpLoop
  | identityJpeg
  | getImage
  deriving DecidableEq

/-- The bindings of `class Camera`, in source order (camera.py top to bottom). -/
def cameraClassBody : List (String × MethodImpl) :=
  [("__init__", MethodImpl.cameraInit),
   ("cam_type", MethodImpl.camTypeProp),
   ("device_uri", MethodImpl.deviceUriProp),
   ("connection_device", MethodImpl.connectionDeviceProp),
   ("size", MethodImpl.sizeProp),
   ("width", MethodImpl.widthProp),
   ("height", MethodImpl.heightProp),
   ("get_frame_number", MethodImpl.getFrameNumber),
   ("_poll_once", MethodImpl.pollOnceDispatch),
   ("_write_data", MethodImpl.writeData),
   ("poll_image", MethodImpl.pollImageQueueLoop),
   ("get_jpeg", MethodImpl.jpegEncodeResize),
   ("poll_image", MethodImpl.pollImageHttpLoop),
   ("get_jpeg", MethodImpl.identityJpeg),
   ("_get_image", MethodImpl.getImage)]

/-- Python attribute resolution on the class body: the LAST binding of a
name in the class body is the one an instance sees. -/
def resolveMethod (nm : String) : Option MethodImpl :=
  (cameraClassBody.filterMap (fun p => if p.1 = nm then some p.2 else none)).getLast?

/-- Camera type tags (`_valid_cam_types` in `Camera.__init__`). -/
inductive CamType where
  | test
  | lima
  | redis
  | mjpeg
  deriving DecidableEq

/- ### The effective `get_jpeg`

The second (and therefore effective) binding of `get_jpeg` (camera.py lines
190-191) is `def get_jpeg(self, data, size=None): return data`.  The earlier
binding (lines 160-170), which re-encodes through the external PIL library,
is shadowed and unreachable, so its body is not modelled. -/

/-- The `get_jpeg` an instance of `Camera` actually calls, dispatched by
class-body resolution.  The effective binding returns `data` unchanged. -/
def cameraGetJpeg (data : List Nat) (size : Nat × Nat) : List Nat :=
  match resolveMethod "get_jpeg" with
  | some MethodImpl.identityJpeg => data
  | _ => []

/-- Modelled from the spec: the PIL JPEG encoder is an external collaborator
("encodes it to a JPEG"); the one property used here is that every JPEG byte
stream begins with the SOI marker `0xFF 0xD8`. -/
def specJpegEncodedOutput (out : List Nat) : Prop := out.take 2 = [255, 216]

instance (out : List Nat) : Decidable (specJpegEncodedOutput out) := by
  unfold specJpegEncodedOutput
  infer_instance

/- ### The MJPEG multipart chunk

`MJPEGStreamer.start` yields
`b"--frame\r\n--!>\nContent-type: image/jpeg\n\n" + get_jpeg(last_frame, out_size) + b"\r\n"`
(streamer.py lines 69-73). -/

/-- CRLF bytes. -/
def crlf : List Nat := [13, 10]

/-- The literal byte-string prepended to every yielded chunk. -/
def chunkHead : List Nat := strBytes "--frame\r\n--!>\nContent-type: image/jpeg\n\n"

/-- The `Content-type` header-text bytes. -/
def ctHeader : List Nat := strBytes "Content-type: image/jpeg"

/-- One chunk yielded by the `MJPEGStreamer.start` generator. -/
def mjpegYield (lastFrame : List Nat) (outSize : Nat × Nat) : List Nat :=
  chunkHead ++ cameraGetJpeg lastFrame outSize ++ crlf

/-- Number of occurrences of `pat` as a contiguous sublist of `l`
(counted by starting position). -/
def countOcc (pat : List Nat) : List Nat → Nat
  | [] => if pat = [] then 1 else 0
  | b :: l => (if pat.isPrefixOf (b :: l) then 1 else 0) + countOcc pat l

/- ### The effective `poll_image`: the HTTP buffering loop

The second (effective) binding of `poll_image` (camera.py lines 173-188)
opens a streaming GET on `device_uri` and accumulates `iter_content` chunks
into `buffer`; when the `requests` library raises `StreamConsumedError` it
puts the whole buffer on the output queue, reopens the GET request, and
resets the buffer.  The loop is modelled as a step function over the events
the `requests` library produces. -/

/-- Observable state of the effective `poll_image` loop: the byte buffer,
the values put on the output queue so far, and the number of streaming GET
requests opened so far. -/
structure PollState where
  buffer : List Nat
  outputs : List (List Nat)
  requestsOpened : Nat
  deriving DecidableEq

/-- Events produced by the upstream `requests` response during the loop. -/
inductive UpEvent where
  | chunk (bytes : List Nat)
  | streamConsumed
  | badStatus (code : Nat)
  deriving DecidableEq

/-- One iteration of the effective `poll_image` loop: a content chunk is
appended to the buffer; `StreamConsumedError` flushes the buffer to the
output queue, reopens the GET request and resets the buffer; a non-200
status prints a message and changes nothing. -/
def pollImageV2Step (s : PollState) : UpEvent → PollState
  | UpEvent.chunk b => ⟨s.buffer ++ b, s.outputs, s.requestsOpened⟩
  | UpEvent.streamConsumed => ⟨[], s.outputs ++ [s.buffer], s.requestsOpened + 1⟩
  | UpEvent.badStatus _ => s

/-- The effective `poll_image` loop run over a finite event sequence
(the loop itself is `while True`). -/
def pollImageV2Run (s : PollState) (evs : List UpEvent) : PollState :=
  evs.foldl pollImageV2Step s

/-- Calls a `Camera` method makes on itself / its collaborators. -/
inductive CameraCall where
  | pollOnce
  | httpGet
  | outputPut
  | getFrameNumberCall
  | getImageCall
  deriving DecidableEq

/-- Collaborator calls of one iteration of the effective `poll_image` loop:
only a `StreamConsumedError` triggers calls (one queue put, one new GET). -/
def pollImageV2CallsStep : UpEvent → List CameraCall
  | UpEvent.streamConsumed => [CameraCall.outputPut, CameraCall.httpGet]
  | _ => []

/-- Call trace of the effective `poll_image`: one initial streaming GET,
then the per-event calls.  The body never refers to `cam_type` and never
calls `_poll_once`. -/
def pollImageV2Calls (evs : List UpEvent) : List CameraCall :=
  CameraCall.httpGet :: evs.foldr (fun e acc => pollImageV2CallsStep e ++ acc) []

/-- Call skeleton of the first (shadowed) `poll_image` binding, whose loop
calls `_poll_once` (the per-`cam_type` dispatch) once per iteration.  The
binding is replaced by the later one, so only this skeleton is represented. -/
def pollImageV1Calls (ct : CamType) (iterations : Nat) : List CameraCall :=
  List.replicate iterations CameraCall.pollOnce

/-- `poll_image` as dispatched on an instance: class-body resolution picks
which binding runs.  The effective binding is the HTTP buffering loop, whose
behavior does not depend on `cam_type`. -/
def cameraPollImage (ct : CamType) (s : PollState) (evs : List UpEvent) :
    PollState × List CameraCall :=
  if resolveMethod "poll_image" = some MethodImpl.pollImageHttpLoop then
    (pollImageV2Run s evs, pollImageV2Calls evs)
  else
    (s, pollImageV1Calls ct evs.length)

/- ### Exception handling of the two `poll_image` bindings -/

/-- Exceptions that can reach a `poll_image` loop iteration. -/
inductive PyExc where
  | keyboardInterrupt
  | brokenPipeError
  | streamConsumedError
  | otherException (msg : String)
  deriving DecidableEq

/-- What a loop iteration does when an exception is raised in its body. -/
inductive IterOutcome where
  | continueLoop (loggedError : Bool)
  | exitClean
  | propagate (e : PyExc)
  | flushAndReopen
  deriving DecidableEq

/-- Exception dispatch of the first (shadowed) `poll_image` binding
(camera.py lines 147-157): `KeyboardInterrupt` and `BrokenPipeError` call
`sys.exit(0)`; any other `Exception` is logged and the loop continues. -/
def pollImageV1Handle : PyExc → IterOutcome
  | PyExc.keyboardInterrupt => IterOutcome.exitClean
  | PyExc.brokenPipeError => IterOutcome.exitClean
  | _ => IterOutcome.continueLoop true

/-- Exception dispatch of the second (effective) `poll_image` binding
(camera.py lines 177-188): only `requests.exceptions.StreamConsumedError`
is caught (flush + reopen); every other exception propagates out of the
loop and aborts the worker. -/
def pollImageV2Handle : PyExc → IterOutcome
  | PyExc.streamConsumedError => IterOutcome.flushAndReopen
  | e => IterOutcome.propagate e

/-- Exception dispatch of the `poll_image` an instance actually runs,
selected by class-body resolution. -/
def cameraPollImageHandle (e : PyExc) : IterOutcome :=
  if resolveMethod "poll_image" = some MethodImpl.pollImageHttpLoop then
    pollImageV2Handle e
  else
    pollImageV1Handle e

/- ### The dedup branch of `_poll_once`

camera.py lines 124-134 (`elif self.cam_type in ['lima', 'redis']`): query
`get_frame_number()`; only when it differs from `self._last_frame_number`
call `_get_image()`, store the raw data, write it to the sink, and update
`self._last_frame_number` (to the frame number `_get_image` returned). -/

/-- The camera state the dedup branch reads and writes. -/
structure CamState where
  lastFrameNumber : Int
  rawData : Option (List Nat)
  deriving DecidableEq

/-- One iteration of the lima/redis branch of `_poll_once`.  `queried` is
what `get_frame_number()` returns; `acqRaw`/`acqFn` are the raw data and
frame number `_get_image()` would return.  Result: new camera state, the
sink writes, and the calls made. -/
def pollOnceDedup (s : CamState) (queried : Int) (acqRaw : List Nat) (acqFn : Int) :
    CamState × List (List Nat) × List CameraCall :=
  if s.lastFrameNumber ≠ queried then
    (⟨acqFn, some acqRaw⟩, [acqRaw],
     [CameraCall.getFrameNumberCall, CameraCall.getImageCall, CameraCall.outputPut])
  else
    (s, [], [CameraCall.getFrameNumberCall])

/- ### The device-proxy (`lima`) frame buffer

camera.py lines 193-206 (`Camera._get_image`, lima branch): the buffer from
`video_last_image` is unpacked with the big-endian struct format
`">IHHqiiHHHH"` (header size 32 bytes: `u32, u16, u16 image_mode,
s64 frame_number, s32 width, s32 height, u16, u16, u16, u16`); the payload
is everything after the header.  The lima branch returns
`(raw_data, width, height, frame_number)`. -/

/-- Big-endian encoding of `v` into exactly `k` bytes (most significant
first; higher bits beyond `k` bytes are dropped, as `struct.pack` masks). -/
def beBytes : Nat → Nat → List Nat
  | 0, _ => []
  | k + 1, v => beBytes k (v / 256) ++ [v % 256]

/-- Value of a big-endian byte list. -/
def beVal (l : List Nat) : Nat := l.foldl (fun acc b => acc * 256 + b) 0

/-- Signed interpretation of a `bits`-bit unsigned value (two's complement),
as `struct.unpack` applies to the `q` and `i` fields. -/
def sVal (bits v : Nat) : Int :=
  if v < 2 ^ (bits - 1) then (v : Int) else (v : Int) - 2 ^ bits

/-- Two's-complement `bits`-bit representation of an integer, as
`struct.pack` produces for the `q` field. -/
def toTwos (bits : Nat) (i : Int) : Nat := (i % (2 : Int) ^ bits).toNat

/-- `Camera._get_image` on the lima branch, applied to the byte buffer of
`video_last_image`: returns `(raw_data, width, height, frame_number)` where
the payload is every byte after the 32-byte header and the three metadata
fields sit at offsets 16 (s32 width), 20 (s32 height) and 8 (s64
frame_number) of the header. -/
def limaGetImage (buf : List Nat) : List Nat × Int × Int × Int :=
  (buf.drop 32,
   sVal 32 (beVal ((buf.drop 16).take 4)),
   sVal 32 (beVal ((buf.drop 20).take 4)),
   sVal 64 (beVal ((buf.drop 8).take 8)))

/-- A device buffer laid out per the documented header format: `u32`
reserved, `u16` reserved, `u16 image_mode`, `s64 frame_number`, `s32 width`,
`s32 height`, four trailing `u16` reserved fields. -/
def limaEncodeHeader (r1 r2 mode : Nat) (fn : Int) (w h : Nat)
    (r3 r4 r5 r6 : Nat) : List Nat :=
  beBytes 4 r1 ++ beBytes 2 r2 ++ beBytes 2 mode ++ beBytes 8 (toTwos 64 fn) ++
    beBytes 4 w ++ beBytes 4 h ++
    beBytes 2 r3 ++ beBytes 2 r4 ++ beBytes 2 r5 ++ beBytes 2 r6

/- ### `Streamer.get_camera` (streamer.py lines 18-33)

The method selects the camera type from `input_uri` (exact match `"test"`,
then `startswith("http")`, then `startswith("redis")`, else lima).  On the
redis branch it then executes `camera.connection_device(self.cam_type)`:
the callee expression evaluates to the value of the `connection_device`
property (which is `None` — the property's setter was never run), and
evaluating the argument reads `self.cam_type`, an attribute a `Streamer`
instance does not have (its `__init__` sets only `_config`, `_host`,
`_port`, `_debug`), which raises `AttributeError`.  (If the attribute
existed, calling the `None` value would raise `TypeError` instead.) -/

/-- Exceptions `get_camera` can raise. -/
inductive PyError where
  | attributeError (obj attr : String)
  | typeError (msg : String)
  deriving DecidableEq

/-- The constructor arguments `get_camera` passes to `Camera(...)`. -/
structure CameraInit where
  device_uri : List Char
  cam_type : CamType
  width : Nat
  height : Nat
  deriving DecidableEq

/-- Attributes a `Streamer` instance has (set in `Streamer.__init__`). -/
def streamerAttrs : List String := ["_config", "_host", "_port", "_debug"]

/-- `Streamer.get_camera`, as a function of `config.input_uri`.  (The
`"test"` branch also executes a `pdb.set_trace()` breakpoint, irrelevant to
the returned value modelled here.) -/
def getCamera (input_uri : List Char) : Except PyError CameraInit :=
  if input_uri = strChars "test" then
    Except.ok ⟨strChars "TANGO_URI", CamType.test, 1024, 1360⟩
  else if (strChars "http").isPrefixOf input_uri then
    Except.ok ⟨input_uri, CamType.mjpeg, 1024, 1360⟩
  else if (strChars "redis").isPrefixOf input_uri then
    (if streamerAttrs.contains "cam_type" then
      Except.error (PyError.typeError "NoneType object is not callable")
    else
      Except.error (PyError.attributeError "Streamer" "cam_type"))
  else
    Except.ok ⟨input_uri, CamType.lima, 1024, 1360⟩

/- ### Helper lemmas -/

theorem beBytes_length (k : Nat) : ∀ v : Nat, (beBytes k v).length = k := by
  induction k with
  | zero => intro v; rfl
  | succ k ih => intro v; simp [beBytes, ih]

theorem beVal_snoc (l : List Nat) (b : Nat) : beVal (l ++ [b]) = beVal l * 256 + b := by
  simp [beVal, List.foldl_append]

theorem beVal_beBytes (k : Nat) : ∀ v : Nat, v < 256 ^ k → beVal (beBytes k v) = v := by
  induction k with
  | zero =>
    intro v hv
    have hv0 : v = 0 := by simpa using Nat.lt_one_iff.mp (by simpa using hv)
    simp [hv0, beBytes, beVal]
  | succ k ih =>
    intro v hv
    have hdiv : v / 256 < 256 ^ k := by
      refine (Nat.div_lt_iff_lt_mul (by norm_num)).mpr ?_
      calc v < 256 ^ (k + 1) := hv
        _ = 256 ^ k * 256 := by rw [pow_succ]
    rw [beBytes, beVal_snoc, ih (v / 256) hdiv]
    omega

theorem toTwos64_lt (i : Int) : toTwos 64 i < 256 ^ 8 := by
  have h0 : 0 ≤ i % (2 : Int) ^ 64 := Int.emod_nonneg i (by norm_num)
  have h1 : i % (2 : Int) ^ 64 < (2 : Int) ^ 64 := Int.emod_lt_of_pos i (by norm_num)
  unfold toTwos
  norm_num at h1 ⊢
  omega

theorem sVal_toTwos64 (i : Int) (h1 : -(2 ^ 63) ≤ i) (h2 : i < 2 ^ 63) :
    sVal 64 (toTwos 64 i) = i := by
  have p63 : (2 : Int) ^ 63 = 9223372036854775808 := by norm_num
  have p64 : (2 : Int) ^ 64 = 18446744073709551616 := by norm_num
  have n63 : (2 : Nat) ^ (64 - 1) = 9223372036854775808 := by norm_num
  unfold sVal toTwos
  rw [p63] at h1 h2
  rw [p64, n63]
  split <;> omega

theorem sVal32_cast (w : Nat) (hw : w < 2 ^ 31) : sVal 32 w = (w : Int) := by
  have hcond : w < 2 ^ (32 - 1) := by norm_num at hw ⊢; omega
  unfold sVal
  rw [if_pos hcond]

theorem limaHeader_length (r1 r2 mode : Nat) (fn : Int) (w h : Nat) (r3 r4 r5 r6 : Nat) :
    (limaEncodeHeader r1 r2 mode fn w h r3 r4 r5 r6).length = 32 := by
  simp [limaEncodeHeader, beBytes_length]

/-- Parsing an encoded lima buffer recovers the payload and the three
metadata fields (shared engine behind the device-proxy claims). -/
theorem limaGetImage_encode (r1 r2 mode : Nat) (fn : Int) (w h : Nat) (r3 r4 r5 r6 : Nat)
    (payload : List Nat) (hfn1 : -(2 ^ 63) ≤ fn) (hfn2 : fn < 2 ^ 63)
    (hw : w < 2 ^ 31) (hh : h < 2 ^ 31) :
    limaGetImage (limaEncodeHeader r1 r2 mode fn w h r3 r4 r5 r6 ++ payload) =
      (payload, (w : Int), (h : Int), fn) := by
  have e8 : limaEncodeHeader r1 r2 mode fn w h r3 r4 r5 r6 ++ payload =
      (beBytes 4 r1 ++ beBytes 2 r2 ++ beBytes 2 mode) ++
        (beBytes 8 (toTwos 64 fn) ++ (beBytes 4 w ++ (beBytes 4 h ++
          (beBytes 2 r3 ++ beBytes 2 r4 ++ beBytes 2 r5 ++ beBytes 2 r6 ++ payload)))) := by
    simp [limaEncodeHeader, List.append_assoc]
  have e16 : limaEncodeHeader r1 r2 mode fn w h r3 r4 r5 r6 ++ payload =
      (beBytes 4 r1 ++ beBytes 2 r2 ++ beBytes 2 mode ++ beBytes 8 (toTwos 64 fn)) ++
        (beBytes 4 w ++ (beBytes 4 h ++
          (beBytes 2 r3 ++ beBytes 2 r4 ++ beBytes 2 r5 ++ beBytes 2 r6 ++ payload))) := by
    simp [limaEncodeHeader, List.append_assoc]
  have e20 : limaEncodeHeader r1 r2 mode fn w h r3 r4 r5 r6 ++ payload =
      (beBytes 4 r1 ++ beBytes 2 r2 ++ beBytes 2 mode ++ beBytes 8 (toTwos 64 fn) ++
        beBytes 4 w) ++
        (beBytes 4 h ++
          (beBytes 2 r3 ++ beBytes 2 r4 ++ beBytes 2 r5 ++ beBytes 2 r6 ++ payload)) := by
    simp [limaEncodeHeader, List.append_assoc]
  have hfnb : ((limaEncodeHeader r1 r2 mode fn w h r3 r4 r5 r6 ++ payload).drop 8).take 8 =
      beBytes 8 (toTwos 64 fn) := by
    rw [e8,
      List.drop_left' (show (beBytes 4 r1 ++ beBytes 2 r2 ++ beBytes 2 mode).length = 8 by
        simp [beBytes_length]),
      List.take_left' (beBytes_length 8 (toTwos 64 fn))]
  have hwbb : ((limaEncodeHeader r1 r2 mode fn w h r3 r4 r5 r6 ++ payload).drop 16).take 4 =
      beBytes 4 w := by
    rw [e16,
      List.drop_left' (show (beBytes 4 r1 ++ beBytes 2 r2 ++ beBytes 2 mode ++
          beBytes 8 (toTwos 64 fn)).length = 16 by simp [beBytes_length]),
      List.take_left' (beBytes_length 4 w)]
  have hhbb : ((limaEncodeHeader r1 r2 mode fn w h r3 r4 r5 r6 ++ payload).drop 20).take 4 =
      beBytes 4 h := by
    rw [e20,
      List.drop_left' (show (beBytes 4 r1 ++ beBytes 2 r2 ++ beBytes 2 mode ++
          beBytes 8 (toTwos 64 fn) ++ beBytes 4 w).length = 20 by simp [beBytes_length]),
      List.take_left' (beBytes_length 4 h)]
  have hpay : (limaEncodeHeader r1 r2 mode fn w h r3 r4 r5 r6 ++ payload).drop 32 = payload :=
    List.drop_left' (limaHeader_length r1 r2 mode fn w h r3 r4 r5 r6)
  unfold limaGetImage
  rw [hfnb, hwbb, hhbb, hpay,
    beVal_beBytes 8 (toTwos 64 fn) (toTwos64_lt fn),
    beVal_beBytes 4 w (lt_of_lt_of_le hw (by norm_num)),
    beVal_beBytes 4 h (lt_of_lt_of_le hh (by norm_num)),
    sVal_toTwos64 fn hfn1 hfn2, sVal32_cast w hw, sVal32_cast h hh]

/-- Occurrence counting skips over a block that never contains the first
byte of the (nonempty) pattern. -/
theorem countOcc_append_of_head_ne (p : Nat) (pt b : List Nat) :
    ∀ a : List Nat, p ∉ a → countOcc (p :: pt) (a ++ b) = countOcc (p :: pt) b := by
  intro a
  induction a with
  | nil => intro _; rfl
  | cons x xs ih =>
    intro ha
    have hx : (p == x) = false := by
      simp only [beq_eq_false_iff_ne]
      intro he
      exact ha (by simp [he])
    have hxs : p ∉ xs := fun hm => ha (by simp [hm])
    simp only [List.cons_append, countOcc, List.isPrefixOf_cons₂, hx, Bool.false_and,
      if_neg Bool.false_ne_true, Nat.zero_add, List.append_eq]
    exact ih hxs

/-- A list is a Boolean prefix of itself followed by anything. -/
theorem isPrefixOf_append_self (l r : List Nat) : l.isPrefixOf (l ++ r) = true := by
  induction l with
  | nil => simp
  | cons x xs ih => simp [List.isPrefixOf_cons₂, ih]

/-- Running the effective `poll_image` loop over the chunks of one upstream
response followed by the stream-consumed signal: one flush, buffer reset,
one reopened request. -/
theorem pollImageV2Run_flush (cs : List (List Nat)) :
    ∀ (b0 : List Nat) (outs : List (List Nat)) (n : Nat),
      pollImageV2Run ⟨b0, outs, n⟩ (cs.map UpEvent.chunk ++ [UpEvent.streamConsumed]) =
        ⟨[], outs ++ [b0 ++ cs.flatten], n + 1⟩ := by
  induction cs with
  | nil =>
    intro b0 outs n
    simp [pollImageV2Run, pollImageV2Step]
  | cons c cs ih =>
    intro b0 outs n
    simp only [List.map_cons, List.cons_append, pollImageV2Run, List.foldl_cons]
    rw [show pollImageV2Step ⟨b0, outs, n⟩ (UpEvent.chunk c) = ⟨b0 ++ c, outs, n⟩ from rfl]
    have hrec := ih (b0 ++ c) outs n
    simp only [pollImageV2Run] at hrec
    rw [hrec]
    simp [List.append_assoc]

/-- No per-event call of the effective `poll_image` is a `_poll_once` call. -/
theorem pollOnce_not_mem_v2Steps (evs : List UpEvent) :
    CameraCall.pollOnce ∉ evs.foldr (fun e acc => pollImageV2CallsStep e ++ acc) [] := by
  induction evs with
  | nil => simp
  | cons e evs ih =>
    rw [List.foldr_cons]
    intro hmem
    rcases List.mem_append.mp hmem with h1 | h1
    · cases e <;> simp [pollImageV2CallsStep] at h1
    · exact ih h1

/-- The effective `poll_image` never calls `_poll_once`. -/
theorem pollOnce_not_mem_v2Calls (evs : List UpEvent) :
    CameraCall.pollOnce ∉ pollImageV2Calls evs := by
  unfold pollImageV2Calls
  intro hmem
  rcases List.mem_cons.mp hmem with hc | hc
  · exact CameraCall.noConfusion hc
  · exact pollOnce_not_mem_v2Steps evs hc

/-- One unfolding step of `countOcc` at an occurrence of the pattern itself. -/
theorem countOcc_cons_self (p : Nat) (pat Z : List Nat) :
    countOcc (p :: pat) ((p :: pat) ++ Z) = 1 + countOcc (p :: pat) (pat ++ Z) := by
  simp only [List.cons_append, countOcc, List.isPrefixOf_cons₂, beq_self_eq_true,
    Bool.true_and, List.append_eq, isPrefixOf_append_self, if_true]

/-- The `Content-type` text occurs exactly once in a yielded chunk, provided
it does not occur in the image bytes plus trailing CRLF. -/
theorem countOcc_ctHeader_chunk (rest : List Nat) (h0 : countOcc ctHeader rest = 0) :
    countOcc ctHeader (chunkHead ++ rest) = 1 := by
  have hsplit : chunkHead =
      strBytes "--frame\r\n--!>\n" ++ (ctHeader ++ strBytes "\n\n") := by decide
  have hct : ctHeader = 67 :: strBytes "ontent-type: image/jpeg" := by decide
  have hpre : (67 : Nat) ∉ strBytes "--frame\r\n--!>\n" := by decide
  have htail : (67 : Nat) ∉ strBytes "ontent-type: image/jpeg" := by decide
  have hnn : (67 : Nat) ∉ strBytes "\n\n" := by decide
  rw [hct] at h0
  rw [hsplit]
  simp only [List.append_assoc]
  rw [hct, countOcc_append_of_head_ne _ _ _ _ hpre, countOcc_cons_self,
    countOcc_append_of_head_ne _ _ _ _ htail,
    countOcc_append_of_head_ne _ _ _ _ hnn, h0]

/- ### Claim theorems -/

/-- C1 (counterexample): the single-slot channel is `multiprocessing.Queue(1)`
whose `put` BLOCKS when the slot already holds an unread value — it neither
discards nor replaces it.  Concretely: a put onto a full slot has no
completed post-state, a sequence of two writes cannot complete, and hence no
post-state exists in which a take returns the 2nd (most recent) value, so
the claimed overwrite/never-block semantics is false on the code. -/
theorem latest_channel_overwrite_counterexample :
    mpQueuePut (some 0) 1 = none ∧
    mpQueuePutSeq (none : Option Nat) [0, 1] = none ∧
    ¬ ∃ s : Option Nat, mpQueuePutSeq (none : Option Nat) [0, 1] = some s ∧
        mpQueueGetNowait s = some (1, none) := by
  refine ⟨rfl, rfl, ?_⟩
  rintro ⟨s, hs, _⟩
  simp [mpQueuePutSeq, mpQueuePut] at hs

/-- C1 (amended): writing to the `Queue(1)` slot when it is empty stores the
value and a take then returns it; writing while the slot still holds an
unread value blocks the producer (the held value is never discarded), so a
take can only ever follow at most one completed write and returns that
single value. -/
theorem latest_channel_blocking_put (v w : Nat) :
    mpQueuePut (none : Option Nat) v = some (some v) ∧
    mpQueueGetNowait (some v) = some (v, none) ∧
    mpQueuePut (some w) v = none ∧
    mpQueuePutSeq (none : Option Nat) [v] = some (some v) :=
  ⟨rfl, rfl, rfl, rfl⟩

/-- C2 (counterexample): the effective `get_jpeg` (the later class-body
binding) returns the frame bytes unchanged: on raw data `[1, 2, 3]` with a
nonzero configured output size `(800, 600)` the emitted image bytes equal
the input, are identical to the `(0, 0)` case (so no resize distinction),
and do not even start with the JPEG SOI marker — they are not a JPEG
encoding of the frame. -/
theorem mjpeg_jpeg_encoding_counterexample :
    cameraGetJpeg [1, 2, 3] (800, 600) = [1, 2, 3] ∧
    cameraGetJpeg [1, 2, 3] (800, 600) = cameraGetJpeg [1, 2, 3] (0, 0) ∧
    ¬ specJpegEncodedOutput (cameraGetJpeg [1, 2, 3] (800, 600)) := by
  decide

/-- C2 (amended): Python class-body resolution picks the later `get_jpeg`
binding, which returns its input verbatim for every size argument, so the
bytes emitted in the multipart chunk are the raw frame bytes from the
channel, never re-encoded and never resized. -/
theorem mjpeg_get_jpeg_identity (data : List Nat) (outSize : Nat × Nat) :
    resolveMethod "get_jpeg" = some MethodImpl.identityJpeg ∧
    cameraGetJpeg data outSize = data ∧
    mjpegYield data outSize = chunkHead ++ data ++ crlf :=
  ⟨by decide, rfl, rfl⟩

/-- C3: every chunk yielded by the MJPEG generator begins with
`--frame\r\n`, contains exactly one `Content-type: image/jpeg` header line
followed by a blank line, then the image bytes, and ends with CRLF
immediately after the image bytes (hypothesis: the header text does not
also occur inside the image bytes / trailing CRLF). -/
theorem mjpeg_chunk_framing (data : List Nat) (outSize : Nat × Nat)
    (hno : countOcc ctHeader (cameraGetJpeg data outSize ++ crlf) = 0) :
    strBytes "--frame\r\n" <+: mjpegYield data outSize ∧
    countOcc ctHeader (mjpegYield data outSize) = 1 ∧
    mjpegYield data outSize =
      strBytes "--frame\r\n--!>\n" ++ ctHeader ++ strBytes "\n\n" ++
        (cameraGetJpeg data outSize ++ crlf) := by
  have hsplit : chunkHead =
      strBytes "--frame\r\n" ++ strBytes "--!>\nContent-type: image/jpeg\n\n" := by decide
  have hsplit2 : chunkHead =
      strBytes "--frame\r\n--!>\n" ++ (ctHeader ++ strBytes "\n\n") := by decide
  refine ⟨?_, ?_, ?_⟩
  · refine ⟨strBytes "--!>\nContent-type: image/jpeg\n\n" ++
      (cameraGetJpeg data outSize ++ crlf), ?_⟩
    rw [mjpegYield, hsplit]
    simp [List.append_assoc]
  · rw [mjpegYield, List.append_assoc]
    exact countOcc_ctHeader_chunk (cameraGetJpeg data outSize ++ crlf) hno
  · rw [mjpegYield, hsplit2]
    simp [List.append_assoc]

/-- C3 witness: the framing holds at the concrete image bytes
`[255, 216, 255, 217]` with output size `(0, 0)`. -/
theorem mjpeg_chunk_framing_witness :
    countOcc ctHeader (cameraGetJpeg [255, 216, 255, 217] (0, 0) ++ crlf) = 0 ∧
    (strBytes "--frame\r\n" <+: mjpegYield [255, 216, 255, 217] (0, 0) ∧
      countOcc ctHeader (mjpegYield [255, 216, 255, 217] (0, 0)) = 1 ∧
      mjpegYield [255, 216, 255, 217] (0, 0) =
        strBytes "--frame\r\n--!>\n" ++ ctHeader ++ strBytes "\n\n" ++
          (cameraGetJpeg [255, 216, 255, 217] (0, 0) ++ crlf)) :=
  ⟨by decide, mjpeg_chunk_framing [255, 216, 255, 217] (0, 0) (by decide)⟩

/-- C4 (counterexample): the `poll_image` that the polling worker actually
runs (the later class-body binding) catches only `StreamConsumedError`, so a
keyboard interrupt propagates out of the loop instead of exiting cleanly. -/
theorem poll_loop_exception_counterexample :
    cameraPollImageHandle PyExc.keyboardInterrupt =
      IterOutcome.propagate PyExc.keyboardInterrupt ∧
    cameraPollImageHandle PyExc.keyboardInterrupt ≠ IterOutcome.exitClean := by
  decide

/-- C4 (amended): the claimed dispatch (keyboard interrupt / broken pipe →
clean exit, other exceptions → logged continue) is that of the SHADOWED
first `poll_image` binding; the binding the worker actually runs catches
only the stream-consumed signal (flush and reopen) and propagates every
other exception, aborting the worker. -/
theorem poll_loop_exception_amended :
    pollImageV1Handle PyExc.keyboardInterrupt = IterOutcome.exitClean ∧
    pollImageV1Handle PyExc.brokenPipeError = IterOutcome.exitClean ∧
    (∀ m : String, pollImageV1Handle (PyExc.otherException m) =
      IterOutcome.continueLoop true) ∧
    pollImageV1Handle PyExc.streamConsumedError = IterOutcome.continueLoop true ∧
    cameraPollImageHandle PyExc.streamConsumedError = IterOutcome.flushAndReopen ∧
    (∀ e : PyExc, e ≠ PyExc.streamConsumedError →
      cameraPollImageHandle e = IterOutcome.propagate e) := by
  refine ⟨rfl, rfl, fun m => rfl, rfl, rfl, fun e he => ?_⟩
  cases e with
  | keyboardInterrupt => rfl
  | brokenPipeError => rfl
  | streamConsumedError => exact absurd rfl he
  | otherException m => rfl

/-- C4 amended witness: a broken pipe in the executing loop propagates. -/
theorem poll_loop_exception_amended_witness :
    PyExc.brokenPipeError ≠ PyExc.streamConsumedError ∧
    cameraPollImageHandle PyExc.brokenPipeError =
      IterOutcome.propagate PyExc.brokenPipeError :=
  ⟨by decide, poll_loop_exception_amended.2.2.2.2.2 PyExc.brokenPipeError (by decide)⟩

/-- C5: in the dedup branch of `_poll_once` (lima/redis), an iteration whose
queried frame number equals the last observed one performs no acquisition
(only the frame-number query call happens), writes nothing to the sink, and
leaves the stored raw data and last frame number unchanged; when the number
differs, `_get_image` runs, its raw data is written to the sink once, and
the last frame number is updated. -/
theorem poll_once_dedup (s : CamState) (q : Int) (raw : List Nat) (fn : Int) :
    (q = s.lastFrameNumber →
      pollOnceDedup s q raw fn = (s, [], [CameraCall.getFrameNumberCall])) ∧
    (q ≠ s.lastFrameNumber →
      pollOnceDedup s q raw fn =
        (⟨fn, some raw⟩, [raw],
          [CameraCall.getFrameNumberCall, CameraCall.getImageCall,
            CameraCall.outputPut])) := by
  constructor
  · intro h
    simp [pollOnceDedup, h]
  · intro h
    rw [pollOnceDedup, if_pos (Ne.symm h)]

/-- C5 witness: an unchanged frame number leaves everything untouched. -/
theorem poll_once_dedup_witness :
    (0 : Int) = (CamState.mk 0 (some [7])).lastFrameNumber ∧
    pollOnceDedup ⟨0, some [7]⟩ 0 [1, 2, 3] 5 =
      (⟨0, some [7]⟩, [], [CameraCall.getFrameNumberCall]) :=
  ⟨rfl, (poll_once_dedup ⟨0, some [7]⟩ 0 [1, 2, 3] 5).1 rfl⟩

/-- C6: `poll_image` is bound twice in the body of `class Camera` and the
later binding (the HTTP buffering loop) is the one resolution returns, for
every `cam_type`; the dispatched method's state evolution and call trace are
those of the HTTP loop, independent of `cam_type`, and `_poll_once` is never
invoked. -/
theorem poll_image_shadowed (ct ct2 : CamType) (s : PollState) (evs : List UpEvent) :
    resolveMethod "poll_image" = some MethodImpl.pollImageHttpLoop ∧
    cameraPollImage ct s evs = (pollImageV2Run s evs, pollImageV2Calls evs) ∧
    cameraPollImage ct s evs = cameraPollImage ct2 s evs ∧
    CameraCall.pollOnce ∉ (cameraPollImage ct s evs).2 := by
  refine ⟨by decide, rfl, rfl, ?_⟩
  rw [show cameraPollImage ct s evs = (pollImageV2Run s evs, pollImageV2Calls evs)
    from rfl]
  exact pollOnce_not_mem_v2Calls evs

/-- C7: parsing a buffer laid out per the documented big-endian header
(`u32`, `u16`, `u16 image_mode`, `s64 frame_number`, `s32 width`,
`s32 height`, four `u16` reserved) followed by a payload of size
`width*height*3` yields exactly the encoded `(frame_number, width, height)`
and a payload equal to every byte after the 32-byte header. -/
theorem lima_header_parse (r1 r2 mode : Nat) (fn : Int) (w h : Nat) (r3 r4 r5 r6 : Nat)
    (payload : List Nat) (hfn1 : -(2 ^ 63) ≤ fn) (hfn2 : fn < 2 ^ 63)
    (hw : w < 2 ^ 31) (hh : h < 2 ^ 31) (hlen : payload.length = w * h * 3) :
    limaGetImage (limaEncodeHeader r1 r2 mode fn w h r3 r4 r5 r6 ++ payload) =
      (payload, (w : Int), (h : Int), fn) :=
  limaGetImage_encode r1 r2 mode fn w h r3 r4 r5 r6 payload hfn1 hfn2 hw hh

/-- C7 witness: a concrete buffer with frame number `-2`, width 2, height 1
and a 6-byte payload parses back exactly. -/
theorem lima_header_parse_witness :
    (-(2 ^ 63) ≤ (-2 : Int)) ∧ ((-2 : Int) < 2 ^ 63) ∧
    (2 < 2 ^ 31) ∧ (1 < 2 ^ 31) ∧
    ([1, 2, 3, 4, 5, 6] : List Nat).length = 2 * 1 * 3 ∧
    limaGetImage (limaEncodeHeader 1 2 3 (-2) 2 1 4 5 6 7 ++ [1, 2, 3, 4, 5, 6]) =
      ([1, 2, 3, 4, 5, 6], 2, 1, -2) :=
  ⟨by decide, by decide, by decide, by decide, by decide,
    lima_header_parse 1 2 3 (-2) 2 1 4 5 6 7 [1, 2, 3, 4, 5, 6]
      (by decide) (by decide) (by decide) (by decide) (by decide)⟩

/-- C8 (counterexample): the pipeline performs no length validation: a lima
buffer whose header declares width 1, height 1 but whose payload has 5 bytes
is parsed successfully, and the dedup loop accepts it and writes the 5-byte
raw data to the sink, violating `len(raw_pixels) == width*height*3 = 3`. -/
theorem frame_size_invariant_counterexample :
    (limaGetImage (limaEncodeHeader 0 0 0 1 1 1 0 0 0 0 ++ [1, 2, 3, 4, 5])).1.length = 5 ∧
    (limaGetImage (limaEncodeHeader 0 0 0 1 1 1 0 0 0 0 ++ [1, 2, 3, 4, 5])).2.1 = 1 ∧
    (limaGetImage (limaEncodeHeader 0 0 0 1 1 1 0 0 0 0 ++ [1, 2, 3, 4, 5])).2.2.1 = 1 ∧
    pollOnceDedup ⟨-1, none⟩ 1
        (limaGetImage (limaEncodeHeader 0 0 0 1 1 1 0 0 0 0 ++ [1, 2, 3, 4, 5])).1 1 =
      (⟨1, some [1, 2, 3, 4, 5]⟩, [[1, 2, 3, 4, 5]],
        [CameraCall.getFrameNumberCall, CameraCall.getImageCall, CameraCall.outputPut]) ∧
    ¬ (5 = 1 * 1 * 3) := by
  decide

/-- C8 (amended): the invariant `len(raw_pixels) == width*height*3` holds
exactly when the backend conforms: for a lima buffer whose payload after the
32-byte header has length `width*height*3`, the acquired frame satisfies it
(the parse keeps the payload intact); the code itself never checks it. -/
theorem frame_size_invariant_amended (r1 r2 mode : Nat) (fn : Int) (w h : Nat)
    (r3 r4 r5 r6 : Nat) (payload : List Nat) (hfn1 : -(2 ^ 63) ≤ fn)
    (hfn2 : fn < 2 ^ 63) (hw : w < 2 ^ 31) (hh : h < 2 ^ 31)
    (hlen : payload.length = w * h * 3) :
    (limaGetImage (limaEncodeHeader r1 r2 mode fn w h r3 r4 r5 r6 ++ payload)).1.length =
      w * h * 3 ∧
    (limaGetImage (limaEncodeHeader r1 r2 mode fn w h r3 r4 r5 r6 ++ payload)).2.1 =
      (w : Int) ∧
    (limaGetImage (limaEncodeHeader r1 r2 mode fn w h r3 r4 r5 r6 ++ payload)).2.2.1 =
      (h : Int) := by
  rw [limaGetImage_encode r1 r2 mode fn w h r3 r4 r5 r6 payload hfn1 hfn2 hw hh]
  exact ⟨hlen, rfl, rfl⟩

/-- C8 amended witness: a conforming buffer (width 1, height 2, 6-byte
payload) satisfies the invariant. -/
theorem frame_size_invariant_amended_witness :
    (-(2 ^ 63) ≤ (3 : Int)) ∧ ((3 : Int) < 2 ^ 63) ∧ (1 < 2 ^ 31) ∧ (2 < 2 ^ 31) ∧
    ([9, 9, 9, 9, 9, 9] : List Nat).length = 1 * 2 * 3 ∧
    ((limaGetImage (limaEncodeHeader 0 0 0 3 1 2 0 0 0 0 ++
        [9, 9, 9, 9, 9, 9])).1.length = 1 * 2 * 3 ∧
      (limaGetImage (limaEncodeHeader 0 0 0 3 1 2 0 0 0 0 ++
        [9, 9, 9, 9, 9, 9])).2.1 = (1 : Int) ∧
      (limaGetImage (limaEncodeHeader 0 0 0 3 1 2 0 0 0 0 ++
        [9, 9, 9, 9, 9, 9])).2.2.1 = (2 : Int)) :=
  ⟨by decide, by decide, by decide, by decide, by decide,
    frame_size_invariant_amended 0 0 0 3 1 2 0 0 0 0 [9, 9, 9, 9, 9, 9]
      (by decide) (by decide) (by decide) (by decide) (by decide)⟩

/-- C9: when the client library raises the stream-consumed signal, all bytes
buffered since the last flush are delivered to the output as one single
unit, the buffer is reset to empty and a new GET request is opened before
any further bytes are read (the remaining events run from the reset state
under the incremented request count). -/
theorem http_resync (b0 : List Nat) (outs : List (List Nat)) (n : Nat)
    (cs : List (List Nat)) (evs : List UpEvent) :
    pollImageV2Run ⟨b0, outs, n⟩ (cs.map UpEvent.chunk ++ [UpEvent.streamConsumed]) =
      ⟨[], outs ++ [b0 ++ cs.flatten], n + 1⟩ ∧
    pollImageV2Run ⟨b0, outs, n⟩
        (cs.map UpEvent.chunk ++ [UpEvent.streamConsumed] ++ evs) =
      pollImageV2Run ⟨[], outs ++ [b0 ++ cs.flatten], n + 1⟩ evs := by
  refine ⟨pollImageV2Run_flush cs b0 outs n, ?_⟩
  rw [pollImageV2Run, List.append_assoc, List.foldl_append]
  rw [show (cs.map UpEvent.chunk).foldl pollImageV2Step ⟨b0, outs, n⟩ =
      pollImageV2Run ⟨b0, outs, n⟩ (cs.map UpEvent.chunk) from rfl]
  rw [show ([UpEvent.streamConsumed] ++ evs).foldl pollImageV2Step
        (pollImageV2Run ⟨b0, outs, n⟩ (cs.map UpEvent.chunk)) =
      pollImageV2Run (pollImageV2Run ⟨b0, outs, n⟩ (cs.map UpEvent.chunk))
        ([UpEvent.streamConsumed] ++ evs) from rfl]
  rw [show pollImageV2Run (pollImageV2Run ⟨b0, outs, n⟩ (cs.map UpEvent.chunk))
        ([UpEvent.streamConsumed] ++ evs) =
      pollImageV2Run
        (pollImageV2Run (pollImageV2Run ⟨b0, outs, n⟩ (cs.map UpEvent.chunk))
          [UpEvent.streamConsumed]) evs from List.foldl_append ..]
  rw [show pollImageV2Run (pollImageV2Run ⟨b0, outs, n⟩ (cs.map UpEvent.chunk))
        [UpEvent.streamConsumed] =
      pollImageV2Run ⟨b0, outs, n⟩ (cs.map UpEvent.chunk ++ [UpEvent.streamConsumed])
    from (List.foldl_append ..).symm]
  rw [pollImageV2Run_flush cs b0 outs n]

/-- C10: whenever `input_uri` starts with `"redis"`, `get_camera` raises —
evaluating the argument of `camera.connection_device(self.cam_type)` reads
the attribute `cam_type`, which a `Streamer` instance does not have — so no
redis-backed camera is ever returned. -/
theorem get_camera_redis_raises (uri : List Char)
    (h : (strChars "redis").isPrefixOf uri = true) :
    getCamera uri = Except.error (PyError.attributeError "Streamer" "cam_type") := by
  obtain ⟨t, rfl⟩ := List.isPrefixOf_iff_prefix.mp h
  unfold getCamera
  rw [if_neg (by simp [strChars]),
    if_neg (by rw [show (strChars "http").isPrefixOf (strChars "redis" ++ t) = false
      from rfl]; simp),
    if_pos h]
  rfl

/-- C10 witness: a concrete redis URI raises the attribute error. -/
theorem get_camera_redis_raises_witness :
    (strChars "redis").isPrefixOf (strChars "redis://hst") = true ∧
    getCamera (strChars "redis://hst") =
      Except.error (PyError.attributeError "Streamer" "cam_type") :=
  ⟨by decide, get_camera_redis_raises (strChars "redis://hst") (by decide)⟩
